import Mathlib

/-!
Verification development for the golib repository: a shallow embedding of
its access-token issuance/validation component (package `auth`) and of the
configuration loader (`config.ParseConfig`), with theorems checking the
repository's specification against these definitions.

The `auth` package's implementation file is not part of the staged sources;
only its test (`TestToken`) is. Its operations are therefore modelled from
the specification's own description (spec sections 3, 4.2, 4.3, 6): tokens
are kept in parsed form, and the HMAC-class symmetric signature is modelled
as an ideal message-authentication code, `hmacSign secret payload`, whose
value is determined by — and only equal to another signature with — the same
(secret, payload) pair. The wire format (three dot-separated base64url
segments) is modelled by an explicit serializer `serializeToken`.
-/

/-- Custom claims payload carried inside a token: a single scope string.
Modelled from the spec: the `auth` implementation (CustomClaims) is not in
the staged sources, only its test; spec section 3 defines the field. -/
structure CustomClaims where
  Scope : String
deriving DecidableEq

/-- The claims a signed token embeds: the custom scope claim together with
the standard expiration claim (absolute Unix seconds, int64).
Modelled from the spec, sections 3 and 4.2. -/
structure TokenPayload where
  scope : String
  expiresAt : Int
deriving DecidableEq

/-- An ideal symmetric (HMAC-class) signature value: formally the pair of
the signing key and the signed payload, so that two signatures are equal
exactly when both the secret and the payload agree (perfect MAC).
Modelled from the spec, section 4.2 ("sign the payload using a symmetric
message-authentication scheme keyed by secret"). -/
structure MacSig where
  key : String
  msg : TokenPayload
deriving DecidableEq

/-- Signing a payload with a secret under the ideal MAC model. -/
def hmacSign (secret : String) (payload : TokenPayload) : MacSig :=
  { key := secret, msg := payload }

/-- A signed token in parsed form: its embedded claims payload and its
signature. The serialized wire format is `serializeToken`.
Modelled from the spec, section 3 ("header + claims + signature"). -/
structure SignedToken where
  payload : TokenPayload
  signature : MacSig
deriving DecidableEq

/-- The error taxonomy of the token component (spec section 7). -/
inductive TokenError
  | SigningError
  | InvalidSignature
  | TokenExpired
  | ClaimsMismatch
deriving DecidableEq

/-- The token built by the issuer for (secret, expiresAt, claims): payload
combining the custom scope claim with the expiration claim, signed with the
secret. Modelled from the spec, section 4.2. -/
def signedToken (secret : String) (expiresAt : Int) (claims : CustomClaims) : SignedToken :=
  { payload := { scope := claims.Scope, expiresAt := expiresAt }
    signature := hmacSign secret { scope := claims.Scope, expiresAt := expiresAt } }

/-- `JWTAccessToken(secret, expiresAt, customClaims)`: the token issuer.
Modelled from the spec, section 4.2: it builds and signs the claims payload
and does not consult the current time; `SigningError` is its only negative
path, which in this pure model never arises, so issuance always succeeds. -/
def JWTAccessToken (secret : String) (expiresAt : Int) (claims : CustomClaims) :
    Except TokenError SignedToken :=
  Except.ok (signedToken secret expiresAt claims)

/-- The claims structure returned by claims extraction: the custom claims
together with the standard expiration, as the test reads it
(`claims.CustomClaims.Scope`). Modelled from the spec, section 4.1. -/
structure Claims where
  CustomClaims : CustomClaims
  ExpiresAt : Int
deriving DecidableEq

/-- `TokenClaims(tokenString, secret)`, spec Operation B: verify the
signature (else `InvalidSignature`), check expiration against the current
time (else `TokenExpired` when `now > expiresAt`), and return the embedded
claims; no envelope cross-check. The current time is an explicit argument,
as spec section 5 describes validation as a pure computation over
(secret, claims, current time). Modelled from the spec, section 4.3. -/
def TokenClaims (t : SignedToken) (secret : String) (now : Int) :
    Except TokenError Claims :=
  if t.signature ≠ hmacSign secret t.payload then
    Except.error TokenError.InvalidSignature
  else if now > t.payload.expiresAt then
    Except.error TokenError.TokenExpired
  else
    Except.ok { CustomClaims := { Scope := t.payload.scope }, ExpiresAt := t.payload.expiresAt }

/-- The access-token envelope, Go struct `Token`: the signed token together
with denormalized expiration and scope. The token field is kept in parsed
form. Modelled from the spec, section 3, and the test's
`Token{AccessToken: tokenStr, Expires: expiresAt, Scope: scope}`. -/
structure Token where
  AccessToken : SignedToken
  Expires : Int
  Scope : String
deriving DecidableEq

/-- `Token.Validate(secret)`, spec Operation A, checks in order:
1. signature verification (`InvalidSignature` on failure),
2. expiration against current time (`TokenExpired` when `now > expiresAt`),
3. cross-check of the envelope's denormalized fields against the embedded
   claims (`ClaimsMismatch` on divergence).
Returns `none` on success, matching Go's `error` result (nil on success).
Modelled from the spec, section 4.3. -/
def Token.Validate (t : Token) (secret : String) (now : Int) : Option TokenError :=
  if t.AccessToken.signature ≠ hmacSign secret t.AccessToken.payload then
    some TokenError.InvalidSignature
  else if now > t.AccessToken.payload.expiresAt then
    some TokenError.TokenExpired
  else if t.Expires ≠ t.AccessToken.payload.expiresAt ∨ t.Scope ≠ t.AccessToken.payload.scope then
    some TokenError.ClaimsMismatch
  else
    none

/-- The base64url alphabet (RFC 4648 section 5). -/
def b64Alphabet : List Char :=
  ['A', 'B', 'C', 'D', 'E', 'F', 'G', 'H', 'I', 'J', 'K', 'L', 'M',
   'N', 'O', 'P', 'Q', 'R', 'S', 'T', 'U', 'V', 'W', 'X', 'Y', 'Z',
   'a', 'b', 'c', 'd', 'e', 'f', 'g', 'h', 'i', 'j', 'k', 'l', 'm',
   'n', 'o', 'p', 'q', 'r', 's', 't', 'u', 'v', 'w', 'x', 'y', 'z',
   '0', '1', '2', '3', '4', '5', '6', '7', '8', '9', '-', '_']

/-- A character of the base64url alphabet. -/
def isB64UrlChar (c : Char) : Prop := c ∈ b64Alphabet

instance (c : Char) : Decidable (isB64UrlChar c) :=
  inferInstanceAs (Decidable (c ∈ b64Alphabet))

/-- The base64url digit for a 6-bit value. -/
def b64Char (n : Nat) : Char := b64Alphabet.getD (n % 64) 'A'

/-- Unpadded base64url encoding of a byte sequence (bytes as Nat values):
groups of three bytes become four alphabet characters, with the standard
2- and 3-character tails for one or two trailing bytes. -/
def base64url : List Nat → List Char
  | [] => []
  | [b1] => [b64Char (b1 / 4), b64Char (b1 % 4 * 16)]
  | [b1, b2] => [b64Char (b1 / 4), b64Char (b1 % 4 * 16 + b2 / 16), b64Char (b2 % 16 * 4)]
  | b1 :: b2 :: b3 :: rest =>
      b64Char (b1 / 4) :: b64Char (b1 % 4 * 16 + b2 / 16) ::
        b64Char (b2 % 16 * 4 + b3 / 64) :: b64Char (b3 % 64) :: base64url rest

/-- The byte sequence of a string (code points standing for bytes; the
token component's strings are ASCII). -/
def strBytes (s : String) : List Nat := s.data.map Char.toNat

/-- base64url encoding of a string. -/
def b64urlStr (s : String) : String := String.mk (base64url (strBytes s))

/-- The serialized protected header of every issued token (symmetric
HMAC-class algorithm). Modelled from the spec, section 4.2. -/
def headerPart : String := "alg=HS256,typ=JWT"

/-- Serialization of the claims payload (scope and expiration). -/
def serializeClaims (p : TokenPayload) : String :=
  "scope=" ++ p.scope ++ ",exp=" ++ toString p.expiresAt

/-- Serialization of the ideal MAC value into signature bytes. -/
def serializeSig (sig : MacSig) : String :=
  sig.key ++ "|" ++ serializeClaims sig.msg

/-- The wire format of a signed token: three dot-separated base64url
segments — header, claims payload, signature. Modelled from the spec,
sections 3 and 4.2 ("header.payload.signature, each base64url-encoded,
dot-separated"). -/
def serializeToken (t : SignedToken) : String :=
  b64urlStr headerPart ++ "." ++ b64urlStr (serializeClaims t.payload) ++ "." ++
    b64urlStr (serializeSig t.signature)

/-- A well-formed three-part token string: three non-empty dot-separated
segments of base64url characters (the dot itself is not an alphabet
character, so the split is unambiguous). -/
def wellFormedJWT (s : String) : Prop :=
  ∃ a b c : String,
    a ≠ "" ∧ b ≠ "" ∧ c ≠ "" ∧
    (∀ ch ∈ a.data, isB64UrlChar ch) ∧
    (∀ ch ∈ b.data, isB64UrlChar ch) ∧
    (∀ ch ∈ c.data, isB64UrlChar ch) ∧
    s = a ++ "." ++ b ++ "." ++ c

/-! ## Configuration loader (src/config/config.go)
The option structs and `ParseConfig`, embedded from the source. Go's side
effects (viper's file reading, `os.UserHomeDir`, `os.Exit`) are made
explicit: the effectful collaborators' results are a `ViperEnv` record, and
`ParseConfig` returns a `ParseOutcome` that is either a normal Go return
`(SrvConfig, error)` or a process exit with a code. -/

/-- OAuthRecord defines OAuth provider's credentials. -/
structure OAuthRecord where
  Provider : String
  ClientID : String
  ClientSecret : String
deriving DecidableEq

/-- Kerberos defines kerberos options. -/
structure Kerberos where
  Krb5Conf : String
  Keytab : String
  Realm : String
deriving DecidableEq

/-- GinOptions controls go-gin specific options. -/
structure GinOptions where
  ColorConsole : Bool
deriving DecidableEq

/-- WebServer represents common web server configuration. -/
structure WebServer where
  GinOptions : GinOptions
  Port : Int
  Verbose : Int
  Base : String
  StaticDir : String
  LogFile : String
  LogLongFile : Bool
  LimiterPeriod : String
  XForwardedHost : String
  XContentTypeOptions : String
  RootCAs : String
  ServerCrt : String
  ServerKey : String
  DomainNames : List String
deriving DecidableEq

/-- Frontend stores frontend configuration parameters. -/
structure Frontend where
  WebServer : WebServer
  OAuth : List OAuthRecord
  CaptchaSecretKey : String
  CaptchaPublicKey : String
  CaptchaVerifyUrl : String
  UserCookieExpires : Int
  TestMode : Bool
deriving DecidableEq

/-- Encryption represents encryption configuration parameters. -/
structure Encryption where
  Secret : String
  Cipher : String
deriving DecidableEq

/-- MongoDB represents MongoDB parameters. -/
structure MongoDB where
  DBName : String
  DBColl : String
  DBUri : String
deriving DecidableEq

/-- Discovery represents discovery service configuration. -/
structure Discovery where
  WebServer : WebServer
  MongoDB : MongoDB
  Encryption : Encryption
deriving DecidableEq

/-- MetaData represents metadata service configuration. -/
structure MetaData where
  WebServer : WebServer
  MongoDB : MongoDB
deriving DecidableEq

/-- CHESSMetaData represents CHESS MetaData configuration (the Go map
`WebSectionKeys` is embedded as an association list). -/
structure CHESSMetaData where
  WebServer : WebServer
  MongoDB : MongoDB
  TestMode : Bool
  SchemaFiles : List String
  SchemaRenewInterval : Int
  SchemaSections : List String
  WebSectionKeys : List (String × List String)
deriving DecidableEq

/-- OreCastMetaData represents OreCast MetaData configuration. -/
structure OreCastMetaData where
  WebServer : WebServer
  MongoDB : MongoDB
deriving DecidableEq

/-- DataManagement represents data-management service configuration. -/
structure DataManagement where
  WebServer : WebServer
deriving DecidableEq

/-- DataBookkeeping represents data-bookkeeping service configuration. -/
structure DataBookkeeping where
  WebServer : WebServer
  DBFile : String
  MaxDBConnections : Int
  MaxIdleConnections : Int
deriving DecidableEq

/-- Authz represents authz service configuration. -/
structure Authz where
  WebServer : WebServer
  Encryption : Encryption
  TestMode : Bool
  DBUri : String
  ClientID : String
  ClientSecret : String
  Domain : String
  TokenExpires : Int
deriving DecidableEq

/-- Services represents services structure. -/
structure Services where
  FrontendURL : String
  DiscoveryURL : String
  MetaDataURL : String
  DataManagementURL : String
  DataBookkeepingURL : String
  AuthzURL : String
deriving DecidableEq

/-- SrvConfig represents configuration structure. -/
structure SrvConfig where
  Frontend : Frontend
  Discovery : Discovery
  MetaData : MetaData
  DataManagement : DataManagement
  DataBookkeeping : DataBookkeeping
  Authz : Authz
  Kerberos : Kerberos
  Services : Services
  Encryption : Encryption
  CHESSMetaData : CHESSMetaData
  OreCastMetaData : OreCastMetaData
deriving DecidableEq

/-- Go's zero value for `GinOptions`. -/
def GinOptions.zero : GinOptions := { ColorConsole := false }

/-- Go's zero value for `WebServer`. -/
def WebServer.zero : WebServer :=
  { GinOptions := GinOptions.zero, Port := 0, Verbose := 0, Base := "",
    StaticDir := "", LogFile := "", LogLongFile := false, LimiterPeriod := "",
    XForwardedHost := "", XContentTypeOptions := "", RootCAs := "",
    ServerCrt := "", ServerKey := "", DomainNames := [] }

/-- Go's zero value for `Frontend`. -/
def Frontend.zero : Frontend :=
  { WebServer := WebServer.zero, OAuth := [], CaptchaSecretKey := "",
    CaptchaPublicKey := "", CaptchaVerifyUrl := "", UserCookieExpires := 0,
    TestMode := false }

/-- Go's zero value for `Encryption`. -/
def Encryption.zero : Encryption := { Secret := "", Cipher := "" }

/-- Go's zero value for `MongoDB`. -/
def MongoDB.zero : MongoDB := { DBName := "", DBColl := "", DBUri := "" }

/-- Go's zero value for `Discovery`. -/
def Discovery.zero : Discovery :=
  { WebServer := WebServer.zero, MongoDB := MongoDB.zero, Encryption := Encryption.zero }

/-- Go's zero value for `MetaData`. -/
def MetaData.zero : MetaData := { WebServer := WebServer.zero, MongoDB := MongoDB.zero }

/-- Go's zero value for `CHESSMetaData`. -/
def CHESSMetaData.zero : CHESSMetaData :=
  { WebServer := WebServer.zero, MongoDB := MongoDB.zero, TestMode := false,
    SchemaFiles := [], SchemaRenewInterval := 0, SchemaSections := [],
    WebSectionKeys := [] }

/-- Go's zero value for `OreCastMetaData`. -/
def OreCastMetaData.zero : OreCastMetaData :=
  { WebServer := WebServer.zero, MongoDB := MongoDB.zero }

/-- Go's zero value for `DataManagement`. -/
def DataManagement.zero : DataManagement := { WebServer := WebServer.zero }

/-- Go's zero value for `DataBookkeeping`. -/
def DataBookkeeping.zero : DataBookkeeping :=
  { WebServer := WebServer.zero, DBFile := "", MaxDBConnections := 0,
    MaxIdleConnections := 0 }

/-- Go's zero value for `Authz`. -/
def Authz.zero : Authz :=
  { WebServer := WebServer.zero, Encryption := Encryption.zero, TestMode := false,
    DBUri := "", ClientID := "", ClientSecret := "", Domain := "", TokenExpires := 0 }

/-- Go's zero value for `Services`. -/
def Services.zero : Services :=
  { FrontendURL := "", DiscoveryURL := "", MetaDataURL := "",
    DataManagementURL := "", DataBookkeepingURL := "", AuthzURL := "" }

/-- Go's zero value for `SrvConfig`: the value of `var config SrvConfig`
at the top of `ParseConfig`. -/
def SrvConfig.zero : SrvConfig :=
  { Frontend := Frontend.zero, Discovery := Discovery.zero,
    MetaData := MetaData.zero, DataManagement := DataManagement.zero,
    DataBookkeeping := DataBookkeeping.zero, Authz := Authz.zero,
    Kerberos := { Krb5Conf := "", Keytab := "", Realm := "" },
    Services := Services.zero, Encryption := Encryption.zero,
    CHESSMetaData := CHESSMetaData.zero, OreCastMetaData := OreCastMetaData.zero }

/-- The error `viper.ReadInConfig` reports: the file was not found
(`viper.ConfigFileNotFoundError`), or it was found but could not be
parsed (any other error). -/
inductive ReadError
  | configFileNotFound (msg : String)
  | other (msg : String)
deriving DecidableEq

/-- The results of the effectful collaborators `ParseConfig` calls:
`os.UserHomeDir` (a home directory, or an error), `viper.ReadInConfig`
(`none` on success), and `viper.Unmarshal` (the populated config, or an
error; on error the passed-in config is left as it was). -/
structure ViperEnv where
  userHomeDir : Except String String
  readInConfig : Option ReadError
  unmarshal : Except String SrvConfig

/-- What a call to `ParseConfig` does to its process: return normally with
Go's `(SrvConfig, error)` pair (the error is `none` for nil), or terminate
the process via `os.Exit` with a code. -/
inductive ParseOutcome
  | ret (config : SrvConfig) (err : Option String)
  | exit (code : Nat)
deriving DecidableEq

/-- The body of `ParseConfig` after the config-file location is settled
(config.go lines 200-214): `viper.ReadInConfig`, whose failure is returned
with a message that depends on whether the file was missing or unparsable,
then `viper.Unmarshal` into `config`. -/
def ParseConfigRead (env : ViperEnv) (cfile : String) (config : SrvConfig) : ParseOutcome :=
  match env.readInConfig with
  | some (ReadError.configFileNotFound e) =>
      ParseOutcome.ret config (some ("fail to read " ++ cfile ++ " file, error " ++ e))
  | some (ReadError.other e) =>
      ParseOutcome.ret config (some ("unable to parse " ++ cfile ++ ", error " ++ e))
  | none =>
      match env.unmarshal with
      | Except.error e => ParseOutcome.ret config (some e)
      | Except.ok populated => ParseOutcome.ret populated none

/-- `ParseConfig(cfile)` (config.go lines 178-215): with a non-empty
`cfile` the file is used as given; with an empty `cfile` the config is
searched in the user home directory (`$HOME/.srv.yaml`), and failure of
`os.UserHomeDir` terminates the process with `os.Exit(1)`. -/
def ParseConfig (env : ViperEnv) (cfile : String) : ParseOutcome :=
  let config : SrvConfig := SrvConfig.zero
  if cfile ≠ "" then
    ParseConfigRead env cfile config
  else
    match env.userHomeDir with
    | Except.error _ => ParseOutcome.exit 1
    | Except.ok home => ParseConfigRead env (home ++ "/.srv.yaml") config

/-! ## Helper lemmas -/

/-- Every base64url digit is an alphabet character. -/
theorem b64Char_mem (n : Nat) : b64Char n ∈ b64Alphabet := by
  unfold b64Char
  have h : n % 64 < b64Alphabet.length := by
    have h64 : b64Alphabet.length = 64 := by decide
    rw [h64]
    exact Nat.mod_lt _ (by norm_num)
  rw [List.getD_eq_getElem _ _ h]
  exact List.getElem_mem h

/-- Every character the encoder emits is an alphabet character. -/
theorem mem_base64url : ∀ (bs : List Nat), ∀ c ∈ base64url bs, c ∈ b64Alphabet
  | [] => by simp [base64url]
  | [b1] => by
      intro c hc
      simp only [base64url, List.mem_cons, List.not_mem_nil, or_false] at hc
      rcases hc with h | h <;> exact h ▸ b64Char_mem _
  | [b1, b2] => by
      intro c hc
      simp only [base64url, List.mem_cons, List.not_mem_nil, or_false] at hc
      rcases hc with h | h | h <;> exact h ▸ b64Char_mem _
  | b1 :: b2 :: b3 :: rest => by
      intro c hc
      simp only [base64url, List.mem_cons] at hc
      rcases hc with h | h | h | h | h
      · exact h ▸ b64Char_mem _
      · exact h ▸ b64Char_mem _
      · exact h ▸ b64Char_mem _
      · exact h ▸ b64Char_mem _
      · exact mem_base64url rest c h

/-- The encoder emits something for a non-empty byte sequence. -/
theorem base64url_ne_nil : ∀ (bs : List Nat), bs ≠ [] → base64url bs ≠ []
  | [], h => absurd rfl h
  | [b1], _ => by simp [base64url]
  | [b1, b2], _ => by simp [base64url]
  | b1 :: b2 :: b3 :: rest, _ => by simp [base64url]

/-- The base64url encoding of a non-empty string is a non-empty string of
alphabet characters. -/
theorem b64urlStr_wf (s : String) (h : s.data ≠ []) :
    b64urlStr s ≠ "" ∧ ∀ ch ∈ (b64urlStr s).data, isB64UrlChar ch := by
  constructor
  · intro he
    have hd : (b64urlStr s).data = [] := by rw [he]
    have hz : base64url (strBytes s) = [] := hd
    exact base64url_ne_nil (strBytes s) (by simpa [strBytes] using h) hz
  · intro ch hch
    exact mem_base64url (strBytes s) ch hch

/-- Serialization of a claims payload is never the empty string. -/
theorem serializeClaims_data_ne_nil (p : TokenPayload) : (serializeClaims p).data ≠ [] := by
  unfold serializeClaims
  rw [String.data_append, String.data_append, String.data_append]
  intro h
  rcases List.append_eq_nil.mp h with ⟨h1, _⟩
  rcases List.append_eq_nil.mp h1 with ⟨h2, _⟩
  rcases List.append_eq_nil.mp h2 with ⟨h3, _⟩
  exact absurd h3 (by decide)

/-- Serialization of a signature value is never the empty string. -/
theorem serializeSig_data_ne_nil (g : MacSig) : (serializeSig g).data ≠ [] := by
  unfold serializeSig
  rw [String.data_append, String.data_append]
  intro h
  rcases List.append_eq_nil.mp h with ⟨h1, _⟩
  rcases List.append_eq_nil.mp h1 with ⟨_, h2⟩
  exact absurd h2 (by decide)

/-- Claim C1: for every secret, scope and expiresAt in the future at validation
time, issuing a token and validating the resulting envelope with the same
expiresAt, scope and secret succeeds. -/
theorem validate_of_issue_succeeds (secret scope : String) (expiresAt now : Int)
    (tok : SignedToken)
    (hiss : JWTAccessToken secret expiresAt { Scope := scope } = Except.ok tok)
    (hfut : now < expiresAt) :
    Token.Validate { AccessToken := tok, Expires := expiresAt, Scope := scope } secret now
      = none := by
  have htok : tok = signedToken secret expiresAt { Scope := scope } := by
    simpa [JWTAccessToken] using hiss.symm
  subst htok
  simp [Token.Validate, signedToken, hmacSign, not_lt.mpr hfut.le]

/-- Claim C1 witness at the test's inputs with a validation time before expiry. -/
theorem validate_of_issue_succeeds_witness :
    Token.Validate
      { AccessToken := (signedToken "lksjdlfkjsd" 100 { Scope := "read" }),
        Expires := 100, Scope := "read" } "lksjdlfkjsd" 50 = none :=
  validate_of_issue_succeeds "lksjdlfkjsd" "read" 100 50 _ rfl (by decide)

/-- Claim C2: a correctly signed token whose embedded expiration is in the past at
validation time fails envelope validation with TokenExpired (and hence never
with InvalidSignature), whatever the envelope's denormalized fields are. -/
theorem validate_expired_token (secret scope envScope : String)
    (expiresAt now envExpires : Int) (hpast : now > expiresAt) :
    Token.Validate ⟨signedToken secret expiresAt ⟨scope⟩, envExpires, envScope⟩ secret now
      = some TokenError.TokenExpired := by
  simp [Token.Validate, signedToken, hmacSign, hpast]

/-- Claim C2 witness: the test's token (expiresAt = 100) validated at a realistic
later time against the issuing secret fails as expired. -/
theorem validate_expired_token_witness :
    Token.Validate ⟨signedToken "lksjdlfkjsd" 100 ⟨"read"⟩, 100, "read"⟩ "lksjdlfkjsd" 1700000000
      = some TokenError.TokenExpired :=
  validate_expired_token "lksjdlfkjsd" "read" "read" 100 1700000000 100 (by decide)

/-- Claim C3: validating an issued token with any secret other than the issuing
one fails with InvalidSignature, both through envelope validation and
through claims extraction. -/
theorem validate_wrong_secret_invalid_signature (secret secret2 scope envScope : String)
    (expiresAt now envExpires : Int) (hne : secret2 ≠ secret) :
    Token.Validate ⟨signedToken secret expiresAt ⟨scope⟩, envExpires, envScope⟩ secret2 now
      = some TokenError.InvalidSignature
    ∧ TokenClaims (signedToken secret expiresAt { Scope := scope }) secret2 now
      = Except.error TokenError.InvalidSignature := by
  have hsig : (signedToken secret expiresAt { Scope := scope }).signature ≠
      hmacSign secret2 (signedToken secret expiresAt { Scope := scope }).payload := by
    simp only [signedToken, hmacSign, ne_eq, MacSig.mk.injEq, and_true]
    exact fun h => hne h.symm
  exact ⟨by simp [Token.Validate, hsig], by simp [TokenClaims, hsig]⟩

/-- Claim C3 witness at concrete distinct secrets. -/
theorem validate_wrong_secret_invalid_signature_witness :
    Token.Validate ⟨signedToken "lksjdlfkjsd" 100 ⟨"read"⟩, 100, "read"⟩ "othersecret" 50
      = some TokenError.InvalidSignature
    ∧ TokenClaims (signedToken "lksjdlfkjsd" 100 { Scope := "read" }) "othersecret" 50
      = Except.error TokenError.InvalidSignature :=
  validate_wrong_secret_invalid_signature "lksjdlfkjsd" "othersecret" "read" "read"
    100 50 100 (by decide)

/-- Claim C4: a validly signed, unexpired token wrapped in an envelope whose
denormalized expiration or scope diverges from the embedded claims fails
envelope validation with ClaimsMismatch. -/
theorem validate_envelope_mismatch (t : SignedToken) (secret envScope : String)
    (now envExpires : Int)
    (hsig : t.signature = hmacSign secret t.payload)
    (hexp : ¬ now > t.payload.expiresAt)
    (hmis : envExpires ≠ t.payload.expiresAt ∨ envScope ≠ t.payload.scope) :
    Token.Validate ⟨t, envExpires, envScope⟩ secret now
      = some TokenError.ClaimsMismatch := by
  simp [Token.Validate, hsig, hexp, hmis]

/-- Claim C4 witness: a mismatching denormalized expiration on a freshly signed,
unexpired token. -/
theorem validate_envelope_mismatch_witness :
    Token.Validate ⟨signedToken "lksjdlfkjsd" 100 ⟨"read"⟩, 99, "read"⟩ "lksjdlfkjsd" 50
      = some TokenError.ClaimsMismatch :=
  validate_envelope_mismatch (signedToken "lksjdlfkjsd" 100 { Scope := "read" })
    "lksjdlfkjsd" "read" 50 99 rfl (by decide) (Or.inl (by decide))

/-- Claim C5: extracting claims with the issuing secret from a token issued with
scope s yields a claims structure whose scope is s. -/
theorem tokenClaims_scope_roundtrip (secret s : String) (expiresAt now : Int)
    (tok : SignedToken)
    (hiss : JWTAccessToken secret expiresAt { Scope := s } = Except.ok tok)
    (hexp : ¬ now > expiresAt) :
    ∃ c, TokenClaims tok secret now = Except.ok c ∧ c.CustomClaims.Scope = s := by
  have htok : tok = signedToken secret expiresAt { Scope := s } := by
    simpa [JWTAccessToken] using hiss.symm
  subst htok
  refine ⟨{ CustomClaims := { Scope := s }, ExpiresAt := expiresAt }, ?_, rfl⟩
  simp [TokenClaims, signedToken, hmacSign, hexp]

/-- Claim C5 witness at the test's secret and scope. -/
theorem tokenClaims_scope_roundtrip_witness :
    ∃ c, TokenClaims (signedToken "lksjdlfkjsd" 100 { Scope := "read" }) "lksjdlfkjsd" 50
      = Except.ok c ∧ c.CustomClaims.Scope = "read" :=
  tokenClaims_scope_roundtrip "lksjdlfkjsd" "read" 100 50 _ rfl (by decide)

/-- Claim C6: claims extraction can fail, fails with InvalidSignature exactly when
signature verification fails, with TokenExpired exactly when the verified
token is expired, fails exactly where envelope validation of a consistent
envelope fails (its steps 1 and 2), and never fails with ClaimsMismatch. -/
theorem tokenClaims_failure_cases (t : SignedToken) (secret : String) (now : Int) :
    (TokenClaims t secret now = Except.error TokenError.InvalidSignature ↔
      t.signature ≠ hmacSign secret t.payload)
    ∧ (TokenClaims t secret now = Except.error TokenError.TokenExpired ↔
      (t.signature = hmacSign secret t.payload ∧ now > t.payload.expiresAt))
    ∧ (∀ e, TokenClaims t secret now = Except.error e ↔
      Token.Validate ⟨t, t.payload.expiresAt, t.payload.scope⟩ secret now = some e)
    ∧ TokenClaims t secret now ≠ Except.error TokenError.ClaimsMismatch
    ∧ ∃ t0 : SignedToken, ∃ s0 : String, ∃ n0 : Int, ∃ e0 : TokenError,
        TokenClaims t0 s0 n0 = Except.error e0 := by
  have hex : ∃ t0 : SignedToken, ∃ s0 : String, ∃ n0 : Int, ∃ e0 : TokenError,
      TokenClaims t0 s0 n0 = Except.error e0 :=
    ⟨signedToken "a" 0 { Scope := "" }, "b", 0, TokenError.InvalidSignature, by rfl⟩
  refine ⟨?_, ?_, ?_, ?_, hex⟩ <;>
    by_cases hs : t.signature = hmacSign secret t.payload <;>
    by_cases he : t.payload.expiresAt < now <;>
    simp [TokenClaims, Token.Validate, hs, he]

/-- Claim C7: issuance never consults the clock and succeeds for every expiration
timestamp (in particular past ones), producing a token whose serialized form
is a well-formed three-part dot-separated base64url string; in this model
the issuer has no failure path at all, so in particular no failure other
than SigningError is possible. -/
theorem jwtAccessToken_issues_wellformed (secret : String) (expiresAt : Int)
    (claims : CustomClaims) :
    ∃ tok, JWTAccessToken secret expiresAt claims = Except.ok tok ∧
      wellFormedJWT (serializeToken tok) := by
  refine ⟨signedToken secret expiresAt claims, rfl, ?_⟩
  have h1 := b64urlStr_wf headerPart (by decide)
  have h2 := b64urlStr_wf (serializeClaims (signedToken secret expiresAt claims).payload)
    (serializeClaims_data_ne_nil _)
  have h3 := b64urlStr_wf (serializeSig (signedToken secret expiresAt claims).signature)
    (serializeSig_data_ne_nil _)
  exact ⟨_, _, _, h1.1, h2.1, h3.1, h1.2, h2.2, h3.2, rfl⟩

/-- Claim C8: issuance is deterministic in (secret, expiresAt, claims): two calls
return the same token, also after serialization to the wire format. -/
theorem jwtAccessToken_deterministic (secret : String) (expiresAt : Int)
    (claims : CustomClaims) (t1 t2 : SignedToken)
    (h1 : JWTAccessToken secret expiresAt claims = Except.ok t1)
    (h2 : JWTAccessToken secret expiresAt claims = Except.ok t2) :
    t1 = t2 ∧ serializeToken t1 = serializeToken t2 := by
  have e1 : t1 = signedToken secret expiresAt claims := by
    simpa [JWTAccessToken] using h1.symm
  have e2 : t2 = signedToken secret expiresAt claims := by
    simpa [JWTAccessToken] using h2.symm
  subst e1
  subst e2
  exact ⟨rfl, rfl⟩

/-- Claim C8 witness at the test's inputs. -/
theorem jwtAccessToken_deterministic_witness :
    signedToken "lksjdlfkjsd" 100 { Scope := "read" }
      = signedToken "lksjdlfkjsd" 100 { Scope := "read" }
    ∧ serializeToken (signedToken "lksjdlfkjsd" 100 { Scope := "read" })
      = serializeToken (signedToken "lksjdlfkjsd" 100 { Scope := "read" }) :=
  jwtAccessToken_deterministic "lksjdlfkjsd" 100 { Scope := "read" }
    (signedToken "lksjdlfkjsd" 100 { Scope := "read" })
    (signedToken "lksjdlfkjsd" 100 { Scope := "read" }) rfl rfl

/-- Claim C9: claims extraction is pure; two calls at the same token, secret and
time return the same result. -/
theorem tokenClaims_idempotent (t : SignedToken) (secret : String) (now : Int)
    (r1 r2 : Except TokenError Claims)
    (h1 : TokenClaims t secret now = r1) (h2 : TokenClaims t secret now = r2) :
    r1 = r2 := by
  rw [← h1, ← h2]

/-- Claim C9 witness at a concrete extraction. -/
theorem tokenClaims_idempotent_witness :
    (Except.ok { CustomClaims := { Scope := "read" }, ExpiresAt := (100 : Int) }
      : Except TokenError Claims)
      = Except.ok { CustomClaims := { Scope := "read" }, ExpiresAt := (100 : Int) } :=
  tokenClaims_idempotent (signedToken "lksjdlfkjsd" 100 { Scope := "read" })
    "lksjdlfkjsd" 50 _ _ rfl rfl

/-- Claim C10: ParseConfig's failure behavior splits by cause: a non-empty cfile
that cannot be read or parsed makes it return the zero-value SrvConfig with
a describing error, while an empty cfile with an undeterminable user home
directory terminates the process with exit code 1. -/
theorem parseConfig_failure_split (env : ViperEnv) :
    (∀ cfile re, cfile ≠ "" → env.readInConfig = some re →
      ∃ msg, ParseConfig env cfile = ParseOutcome.ret SrvConfig.zero (some msg))
    ∧ (∀ e, env.userHomeDir = Except.error e → ParseConfig env "" = ParseOutcome.exit 1) := by
  constructor
  · intro cfile re hne hread
    cases re with
    | configFileNotFound m =>
        exact ⟨"fail to read " ++ cfile ++ " file, error " ++ m,
          by simp [ParseConfig, ParseConfigRead, hne, hread]⟩
    | other m =>
        exact ⟨"unable to parse " ++ cfile ++ ", error " ++ m,
          by simp [ParseConfig, ParseConfigRead, hne, hread]⟩
  · intro e he
    simp [ParseConfig, he]
